import Mathlib

/-!
Shallow embedding of the `config_file_handler` crate
(`src/file_handler.rs`, `src/error.rs`, `src/global_mutex.rs`).

The platform path-lookup results (`current_bin_dir`, `bundle_resource_dir`,
`user_app_dir`, `system_cache_dir`) and the process-wide additional search
path are modelled as an `Env` record of resolved results, since the crate
treats them as an external, independently fallible platform service.
The filesystem is modelled as an explicit state (`FS`): an association list
from full paths to file metadata plus directory metadata, with explicit
fault sets for write, mkdir and remove failures.  Every operation that
touches the filesystem returns its result, the new filesystem, and a trace
of events (mutex acquisitions, advisory lock acquisitions/releases, file
creations/truncations/removals), so that locking-discipline claims can be
stated about the traces.
-/

set_option autoImplicit false

deriving instance DecidableEq for Except

namespace ConfigFileHandler

/-- The `std::io::ErrorKind` values this development distinguishes. -/
inductive IoErrorKind where
  | notFound
  | permissionDenied
  | otherErr
  deriving DecidableEq, Repr

/-- `Error` from `src/error.rs`: wrappers for env-var, I/O and JSON errors. -/
inductive Error where
  | Env
  | Io (k : IoErrorKind)
  | JsonParser
  deriving DecidableEq, Repr

/-- `true` iff an `Except` value is `ok` (Rust `Result::is_ok`). -/
def exOk {ε α : Type} : Except ε α → Bool
  | .ok _ => true
  | .error _ => false

/-- Metadata of one file: its byte content and whether opening it for
write access succeeds (permission bits). -/
structure FileMeta where
  content : List Nat
  writable : Bool
  deriving DecidableEq, Repr

/-- The filesystem state.  `files` maps full paths to file metadata;
`dirs` maps directory paths to a flag saying whether creating a file
inside succeeds; `failWrites` are paths on which a byte write raises an
I/O error; `mkdirFails` are directories whose creation fails;
`removeFails` are paths whose removal fails. -/
structure FS where
  files : List (String × FileMeta)
  dirs : List (String × Bool)
  failWrites : List String
  mkdirFails : List String
  removeFails : List String
  deriving DecidableEq, Repr

def FS.lookupFile (fs : FS) (p : String) : Option FileMeta :=
  match fs.files.find? (fun kv => kv.1 == p) with
  | some kv => some kv.2
  | none => none

def FS.setFile (fs : FS) (p : String) (m : FileMeta) : FS :=
  { fs with files := (p, m) :: fs.files.filter (fun kv => !(kv.1 == p)) }

def FS.dirExists (fs : FS) (d : String) : Bool :=
  (fs.dirs.find? (fun kv => kv.1 == d)).isSome

def FS.dirWritable (fs : FS) (d : String) : Bool :=
  match fs.dirs.find? (fun kv => kv.1 == d) with
  | some kv => kv.2
  | none => false

/-- Observable events of a run: the process-wide mutex from
`global_mutex.rs`, the `fs2` advisory file locks, and file operations. -/
inductive Event where
  | mutexLock
  | mutexUnlock
  | flockShared
  | flockExclusive
  | funlock
  | createFile (p : String)
  | truncateFile (p : String)
  | removeFile (p : String)
  | createDir (d : String)
  deriving DecidableEq, Repr

/-- `PathBuf::push`: `dir.push(name)` producing the full file path. -/
def joinPath (dir name : String) : String := dir ++ "/" ++ name

/-- `FileHandler<T>` from the source: it stores only the resolved path
(kept here as the chosen directory plus the file name, so the directory
it resolved to stays observable). -/
structure FileHandler where
  dir : String
  name : String
  deriving DecidableEq, Repr

/-- `FileHandler::path`. -/
def FileHandler.path (h : FileHandler) : String := joinPath h.dir h.name

/-- The resolved results of the platform path lookups and the
process-wide additional search path, fixed for the duration of a run.
On the modelled platform (standard Unix) `bundleResourceDir` is always
`Error::Io NotFound`, but it is kept as a field so the search order can
be stated for every platform. -/
structure Env where
  additionalSearchPath : Option String
  currentBinDir : Except Error String
  bundleResourceDir : Except Error String
  userAppDir : Except Error String
  systemCacheDir : Except Error String

/-- The external serialization collaborator (`serde_json`):
`to_string_pretty` (followed by `into_bytes`) and `from_reader`. -/
structure Serde (T : Type) where
  to_string_pretty : T → Except Error (List Nat)
  from_reader : List Nat → Except Error T

/-- `OpenOptions::new().read(true).write(write).open(path)`, used by
`FileHandler::open`: succeeds iff the file exists and, when write access
is requested, is writable.  Read-only opens never mutate the state. -/
def openExisting (fs : FS) (p : String) (write : Bool) : Except Error Unit :=
  match fs.lookupFile p with
  | none => .error (.Io .notFound)
  | some m =>
    if write && !m.writable then .error (.Io .permissionDenied) else .ok ()

/-- `OpenOptions::new().write(true).create(true).truncate(true).open(path)`:
truncates an existing writable file, creates the file when absent in an
existing writable directory, and fails otherwise. -/
def openCreateTruncate (fs : FS) (dir name : String) :
    Except Error Unit × FS × List Event :=
  match fs.lookupFile (joinPath dir name) with
  | some m =>
    if m.writable then
      (.ok (), fs.setFile (joinPath dir name) { m with content := [] },
       [.truncateFile (joinPath dir name)])
    else (.error (.Io .permissionDenied), fs, [])
  | none =>
    if fs.dirExists dir then
      if fs.dirWritable dir then
        (.ok (), fs.setFile (joinPath dir name) ⟨[], true⟩,
         [.createFile (joinPath dir name)])
      else (.error (.Io .permissionDenied), fs, [])
    else (.error (.Io .notFound), fs, [])

/-- `fs::create_dir`: fails for directories in `mkdirFails`; a freshly
created directory is writable. -/
def create_dir (fs : FS) (d : String) : Except Error Unit × FS × List Event :=
  if fs.mkdirFails.contains d then (.error (.Io .otherErr), fs, [])
  else (.ok (), { fs with dirs := (d, true) :: fs.dirs }, [.createDir d])

/-- `File::write_all`: replaces the opened file's content, failing with an
I/O error on paths in `failWrites`. -/
def write_all (fs : FS) (p : String) (contents : List Nat) :
    Except Error Unit × FS :=
  if fs.failWrites.contains p then (.error (.Io .otherErr), fs)
  else
    match fs.lookupFile p with
    | some m => (.ok (), fs.setFile p { m with content := contents })
    | none => (.error (.Io .notFound), fs)

/-- `fs::remove_file`: fails on paths in `removeFails`. -/
def remove_file (fs : FS) (p : String) : Except Error Unit × FS :=
  if fs.removeFails.contains p then (.error (.Io .otherErr), fs)
  else (.ok (), { fs with files := fs.files.filter (fun kv => !(kv.1 == p)) })

/-- `shared_lock` from the source: acquire the shared advisory lock, run
the wrapped operation, release the lock unconditionally, and return the
operation's result. -/
def shared_lock {R : Type} (content : List Nat)
    (f : List Nat → Except Error R) : Except Error R × List Event :=
  (f content, [.flockShared, .funlock])

/-- `exclusive_lock` from the source: acquire the exclusive advisory
lock, run the wrapped operation, release the lock unconditionally, and
return the operation's result. -/
def exclusive_lock (fs : FS) (f : FS → Except Error Unit × FS) :
    Except Error Unit × FS × List Event :=
  let r := f fs
  (r.1, r.2, [.flockExclusive, .funlock])

/-- `write_with_lock`: `exclusive_lock(file, |file| file.write_all(contents))`. -/
def write_with_lock (fs : FS) (p : String) (contents : List Nat) :
    Except Error Unit × FS × List Event :=
  exclusive_lock fs (fun fs => write_all fs p contents)

/-- Trace of a section executed while holding the global mutex from
`global_mutex::get_mutex`: the guard is acquired on entry and dropped on
every exit path. -/
def wrapMutex (tr : List Event) : List Event :=
  Event.mutexLock :: (tr ++ [Event.mutexUnlock])

/-- One access probe of `FileHandler::open`: whether
`OpenOptions::new().read(true).write(w).open(dir.join(name))` succeeds. -/
def openTry (fs : FS) (dir name : String) (w : Bool) : Bool :=
  exOk (openExisting fs (joinPath dir name) w)

/-- `Result::ok()`: the directory of a resolved candidate, `none` when
the resolution failed (the `if let Ok(mut path) = ...` guard). -/
def resToOpt : Except Error String → Option String
  | .ok d => some d
  | .error _ => none

/-- One search block of `FileHandler::open`:
`if let Some/Ok(mut path) = <candidate> { path.push(name);
if OpenOptions..open(&path).is_ok() { return Ok(FileHandler{path}) } }`,
with `k` the rest of the function after the block. -/
def openStep (fs : FS) (name : String) (w : Bool) (cand : Option String)
    (k : Except Error FileHandler) : Except Error FileHandler :=
  match cand with
  | some dir => if openTry fs dir name w then .ok ⟨dir, name⟩ else k
  | none => k

/-- The final block of `FileHandler::open`: `let mut path =
system_cache_dir()?;` (the resolution error propagates), then the open
whose error is returned verbatim. -/
def openLast (fs : FS) (name : String) (w : Bool)
    (sys : Except Error String) : Except Error FileHandler :=
  match sys with
  | .error e => .error e
  | .ok dir =>
    match openExisting fs (joinPath dir name) w with
    | .ok _ => .ok ⟨dir, name⟩
    | .error e => .error e

/-- `FileHandler::open`: tries, in order, the additional search path, the
executable's directory, the bundle resource directory and the per-user
application directory, returning on the first where the file opens with
the requested access; finally resolves the system cache directory
(propagating its resolution error) and returns the result of opening
there, propagating the open error. -/
def FileHandler.open' (env : Env) (fs : FS) (name : String)
    (assert_writable : Bool) : Except Error FileHandler :=
  openStep fs name assert_writable env.additionalSearchPath
    (openStep fs name assert_writable (resToOpt env.currentBinDir)
      (openStep fs name assert_writable (resToOpt env.bundleResourceDir)
        (openStep fs name assert_writable (resToOpt env.userAppDir)
          (openLast fs name assert_writable env.systemCacheDir))))

/-- One candidate block of `FileHandler::new`:
`if let Ok(mut f) = OpenOptions..write.create.truncate.open(path) {
write_with_lock(&mut f, &contents)?; return Ok(..) }`.  `none` means the
open failed and the loop falls through to the next candidate (the state
is unchanged in that case); `some` means the block returned, either with
the handle or with the error propagated by `?` from `write_with_lock`. -/
def tryCreateWrite (fs : FS) (dir name : String) (contents : List Nat) :
    Option (Except Error FileHandler × FS × List Event) :=
  match openCreateTruncate fs dir name with
  | (.ok _, fs1, tr1) =>
    let r := write_with_lock fs1 (joinPath dir name) contents
    match r.1 with
    | .ok _ => some (.ok ⟨dir, name⟩, r.2.1, tr1 ++ r.2.2)
    | .error e => some (.error e, r.2.1, tr1 ++ r.2.2)
  | (.error _, _, _) => none

/-- The tail of the final block of `FileHandler::new` after the system
cache directory is known to exist: the create-truncate open of the file
(its error propagates, by the `match`/`Err` arm) followed by the locked
write of the default (its error propagates by `?`).  `acc` is the trace
accumulated so far; the whole section since serialization runs under
the global mutex guard, hence `wrapMutex`. -/
def sysOpenWrite (fs1 : FS) (dir name : String) (contents : List Nat)
    (acc : List Event) : Except Error FileHandler × FS × List Event :=
  match openCreateTruncate fs1 dir name with
  | (.error e, fs2, tr2) => (.error e, fs2, wrapMutex (acc ++ tr2))
  | (.ok _, fs2, tr2) =>
    let r := write_with_lock fs2 (joinPath dir name) contents
    match r.1 with
    | .ok _ => (.ok ⟨dir, name⟩, r.2.1, wrapMutex (acc ++ tr2 ++ r.2.2))
    | .error e => (.error e, r.2.1, wrapMutex (acc ++ tr2 ++ r.2.2))

/-- The final block of `FileHandler::new`: `let mut path =
system_cache_dir()?;` (the resolution error propagates), creation of the
directory when absent (`fs::create_dir(&path)?`, its error propagates),
then the open and locked write of `sysOpenWrite`. -/
def sysStep (sysRes : Except Error String) (fs : FS) (name : String)
    (contents : List Nat) (acc : List Event) :
    Except Error FileHandler × FS × List Event :=
  match sysRes with
  | .error e => (.error e, fs, wrapMutex acc)
  | .ok dir =>
    if fs.dirExists dir then sysOpenWrite fs dir name contents acc
    else
      match create_dir fs dir with
      | (.error e, fs1, tr1) => (.error e, fs1, wrapMutex (acc ++ tr1))
      | (.ok _, fs1, tr1) => sysOpenWrite fs1 dir name contents (acc ++ tr1)

/-- One candidate block of `FileHandler::new` without directory
creation (the additional-search-path and executable-directory blocks):
run `tryCreateWrite`; when the block settles, wrap the trace in the
mutex guard events and return, otherwise fall through to the rest of
the function `k` (which receives the state and the trace accumulated
so far). -/
def newBlock (fs : FS) (dir name : String) (contents : List Nat)
    (acc : List Event)
    (k : FS → List Event → Except Error FileHandler × FS × List Event) :
    Except Error FileHandler × FS × List Event :=
  match tryCreateWrite fs dir name contents with
  | some (r, fs', tr) => (r, fs', wrapMutex (acc ++ tr))
  | none => k fs acc

/-- The per-user-application-directory block of `FileHandler::new`:
`let avoid = if path.is_dir() { false } else { fs::create_dir(&path).is_err() };
if !avoid { ... }` — when the directory is absent it is created first,
and a failed creation skips the block. -/
def newBlockMkdir (fs : FS) (dir name : String) (contents : List Nat)
    (acc : List Event)
    (k : FS → List Event → Except Error FileHandler × FS × List Event) :
    Except Error FileHandler × FS × List Event :=
  if fs.dirExists dir then newBlock fs dir name contents acc k
  else
    match create_dir fs dir with
    | (.ok _, fs1, tr1) => newBlock fs1 dir name contents (acc ++ tr1) k
    | (.error _, fs1, tr1) => k fs1 (acc ++ tr1)

/-- The additional search path viewed as a fallible candidate. -/
def optToRes : Option String → Except Error String
  | some d => .ok d
  | none => .error (.Io .notFound)

/-- Dispatch for one candidate of `FileHandler::new`: an unresolved
candidate falls through; a resolved one runs its block, with (`mk`) or
without directory creation. -/
def newCand (res : Except Error String) (mk : Bool) (name : String)
    (contents : List Nat)
    (k : FS → List Event → Except Error FileHandler × FS × List Event)
    (fs : FS) (acc : List Event) :
    Except Error FileHandler × FS × List Event :=
  match res with
  | .error _ => k fs acc
  | .ok dir =>
    if mk then newBlockMkdir fs dir name contents acc k
    else newBlock fs dir name contents acc k

/-- `FileHandler::new` (the `new_or_default` operation): first tries
`open`; on its failure serializes `T::default()`, then, holding the
global mutex guard for the rest of the call, works through the candidate
blocks for the additional search path, the executable's directory and
the per-user application directory (creating that directory when it is
absent and skipping it when the creation fails), finishing with the
system cache block. -/
def FileHandler.new {T : Type} (S : Serde T) (dflt : T) (env : Env)
    (fs : FS) (name : String) (is_existing_file_writable : Bool) :
    Except Error FileHandler × FS × List Event :=
  match FileHandler.open' env fs name is_existing_file_writable with
  | .ok fh => (.ok fh, fs, [])
  | .error _ =>
    match S.to_string_pretty dflt with
    | .error e => (.error e, fs, [])
    | .ok contents =>
      newCand (optToRes env.additionalSearchPath) false name contents
        (newCand env.currentBinDir false name contents
          (newCand env.userAppDir true name contents
            (fun fs acc => sysStep env.systemCacheDir fs name contents acc)))
        fs []

/-- `FileHandler::read_file`: `File::open(&self.path)?`, then the shared
advisory lock around `serde_json::from_reader`. -/
def read_file {T : Type} (S : Serde T) (fs : FS) (h : FileHandler) :
    Except Error T × List Event :=
  match fs.lookupFile h.path with
  | none => (.error (.Io .notFound), [])
  | some m => shared_lock m.content S.from_reader

/-- `FileHandler::write_file`: serializes first (an error returns before
any I/O), then, holding the global mutex guard, opens the path with
write-create-truncate and performs the locked write of the bytes. -/
def write_file {T : Type} (S : Serde T) (fs : FS) (h : FileHandler)
    (v : T) : Except Error Unit × FS × List Event :=
  match S.to_string_pretty v with
  | .error e => (.error e, fs, [])
  | .ok contents =>
    match openCreateTruncate fs h.dir h.name with
    | (.error e, fs1, tr1) => (.error e, fs1, wrapMutex tr1)
    | (.ok _, fs1, tr1) =>
      let r := write_with_lock fs1 h.path contents
      (r.1, r.2.1, wrapMutex (tr1 ++ r.2.2))

/-- The directories `cleanup` iterates over:
`current_bin_dir().into_iter()` chained with `user_app_dir()` and
`system_cache_dir()` — an `Err` contributes nothing.  The additional
search path and the bundle resource directory are not in this chain. -/
def cleanupDirs (env : Env) : List String :=
  (match env.currentBinDir with | .ok d => [d] | .error _ => []) ++
  (match env.userAppDir with | .ok d => [d] | .error _ => []) ++
  (match env.systemCacheDir with | .ok d => [d] | .error _ => [])

/-- The loop body of `cleanup`: for each directory, if `dir/name` exists
remove it, propagating a removal error immediately (`?`). -/
def cleanupLoop (name : String) : List String → FS →
    Except Error Unit × FS × List Event
  | [], fs => (.ok (), fs, [])
  | d :: rest, fs =>
    let p := joinPath d name
    if (fs.lookupFile p).isSome then
      match remove_file fs p with
      | (.ok _, fs1) =>
        let r := cleanupLoop name rest fs1
        (r.1, r.2.1, .removeFile p :: r.2.2)
      | (.error e, fs1) => (.error e, fs1, [])
    else cleanupLoop name rest fs

/-- `cleanup`: removes `name` from the chained directories, stopping at
the first removal error. -/
def cleanup (env : Env) (fs : FS) (name : String) :
    Except Error Unit × FS × List Event :=
  cleanupLoop name (cleanupDirs env) fs

/-! ### Reference definitions following the spec's wording

`openSearch` and `newSearch` restate the two constructors as a single
first-match search over an explicit, ordered candidate list, which is
how the spec describes them; the refinement theorems below prove the
source translations equal to these. -/

/-- A resolved optional candidate as a zero- or one-element list. -/
def optList : Option String → List String
  | some d => [d]
  | none => []

/-- The read-oriented search order of the spec: additional search path
(when set), executable directory, bundle resource directory, per-user
application directory.  The system cache directory is the final,
specially treated candidate and is kept separate. -/
def readOrderDirs (env : Env) : List String :=
  optList env.additionalSearchPath ++ optList (resToOpt env.currentBinDir) ++
  optList (resToOpt env.bundleResourceDir) ++ optList (resToOpt env.userAppDir)

/-- First-match search over the read-oriented candidate list: return a
handle for the first directory where the file opens with the requested
access; when the optional candidates are exhausted, resolve the system
cache directory (propagating its error) and return the open result
there (propagating the open error, whatever its kind). -/
def openSearch (fs : FS) (name : String) (w : Bool) :
    List String → Except Error String → Except Error FileHandler
  | [], sys =>
    match sys with
    | .error e => .error e
    | .ok dir =>
      match openExisting fs (joinPath dir name) w with
      | .ok _ => .ok ⟨dir, name⟩
      | .error e => .error e
  | d :: rest, sys =>
    if openTry fs d name w then .ok ⟨d, name⟩
    else openSearch fs name w rest sys

/-- First-match creation search over an explicit candidate list (each
entry: the directory resolution result, and whether the directory is
created when absent).  An unresolved candidate or a failed create-open
skips to the next candidate; a successful create-open settles the call:
the locked write of the default either yields the handle or aborts the
whole search with the write error.  The base case is the system cache
block. -/
def newSearch (name : String) (contents : List Nat)
    (sys : Except Error String) :
    List (Except Error String × Bool) → FS → List Event →
    Except Error FileHandler × FS × List Event
  | [], fs, acc => sysStep sys fs name contents acc
  | (res, mk) :: rest, fs, acc =>
    newCand res mk name contents (newSearch name contents sys rest) fs acc

/-- `new_or_default` as the spec words it: `open` first; on failure
serialize the default and search the creation candidates in order —
additional search path, executable directory, per-user application
directory (with directory creation), then the system cache block. -/
def newFromSpec {T : Type} (S : Serde T) (dflt : T) (env : Env) (fs : FS)
    (name : String) (is_existing_file_writable : Bool) :
    Except Error FileHandler × FS × List Event :=
  match FileHandler.open' env fs name is_existing_file_writable with
  | .ok fh => (.ok fh, fs, [])
  | .error _ =>
    match S.to_string_pretty dflt with
    | .error e => (.error e, fs, [])
    | .ok contents =>
      newSearch name contents env.systemCacheDir
        [(optToRes env.additionalSearchPath, false),
         (env.currentBinDir, false),
         (env.userAppDir, true)] fs []

/-! ### A concrete serializer

`serde_json` applied to `u64` (the type used by the crate's own tests):
`to_string_pretty` of an unsigned integer is its decimal digit string,
and `from_reader` parses it back. -/

/-- Bytes of the decimal representation of a natural number. -/
def natToBytes (n : Nat) : List Nat :=
  (Nat.repr n).data.map Char.toNat

/-- Parse a decimal digit string back into a natural number. -/
def bytesToNat (bs : List Nat) : Except Error Nat :=
  if bs.isEmpty then .error .JsonParser
  else if bs.all (fun b => 48 ≤ b && b ≤ 57) then
    .ok (bs.foldl (fun acc b => acc * 10 + (b - 48)) 0)
  else .error .JsonParser

/-- The `serde_json` collaborator at type `u64`. -/
def serdeNat : Serde Nat :=
  ⟨fun n => .ok (natToBytes n), bytesToNat⟩

/-- A serializer whose encoding always fails, modelling a value the
serializer cannot encode. -/
def serdeFail : Serde Nat :=
  ⟨fun _ => .error .JsonParser, bytesToNat⟩

/-! ### Cross-process interleaving model of `write_file`

Each of K independent processes runs `write_file` on the same path with
its payload already serialized.  The per-call filesystem steps, in the
source's statement order, are: `OpenOptions..truncate(true).open` (which
truncates immediately — the `O_TRUNC` happens at open time, before any
lock), `lock_exclusive`, the byte writes of `write_all` at the file
descriptor's own offset, and `unlock`.  The in-process global mutex of
`write_file` is private to each process and so places no constraint
between distinct processes; it is therefore not part of this model.
The advisory lock is modelled faithfully: `lock_exclusive` blocks while
any other process holds the lock, and byte writes happen only while
holding it. -/

/-- One writer process: its payload, whether it has performed its
truncating open, how many payload bytes it has written (also its file
descriptor offset), and whether it has unlocked and finished. -/
structure Writer where
  payload : List Nat
  opened : Bool
  written : Nat
  finished : Bool
  deriving DecidableEq, Repr

/-- Shared state: the file bytes, the advisory lock holder, and the
writer processes. -/
structure WSys where
  file : List Nat
  lockHolder : Option Nat
  writers : List Writer
  deriving DecidableEq, Repr

/-- POSIX `write` at a file offset: overwrite in place, or extend the
file (zero-filling any gap between the current length and the offset,
as happens after another process truncated the file). -/
def writeAt (l : List Nat) (pos b : Nat) : List Nat :=
  if pos < l.length then l.set pos b
  else l ++ List.replicate (pos - l.length) 0 ++ [b]

/-- One scheduler step of process `i`: perform its next enabled
`write_file` action — truncating open, exclusive-lock acquisition
(blocked while another process holds the lock), one byte write under
the lock, or unlock when the payload is fully written. -/
def wstep (s : WSys) (i : Nat) : WSys :=
  match s.writers[i]? with
  | none => s
  | some w =>
    if w.finished then s
    else if !w.opened then
      { s with file := [],
               writers := s.writers.set i { w with opened := true } }
    else if s.lockHolder = some i then
      if w.written < w.payload.length then
        { s with file := writeAt s.file w.written (w.payload.getD w.written 0),
                 writers := s.writers.set i { w with written := w.written + 1 } }
      else
        { s with lockHolder := none,
                 writers := s.writers.set i { w with finished := true } }
    else
      match s.lockHolder with
      | none => { s with lockHolder := some i }
      | some _ => s

/-- Run a schedule (a list of process indices) from a start state. -/
def wrun (s : WSys) (sched : List Nat) : WSys :=
  sched.foldl wstep s

/-- Start state for concurrent writers with the given payloads. -/
def winit (payloads : List (List Nat)) : WSys :=
  ⟨[], none, payloads.map (fun p => ⟨p, false, 0, false⟩)⟩

/-- Removal events (the delete half of a writability probe). -/
def Event.isRemoveFile : Event → Bool
  | .removeFile _ => true
  | _ => false

/-- Plain file operations: creations and truncations, no locks, no
mutex, no removals. -/
def Event.isFileOp : Event → Bool
  | .createFile _ => true
  | .truncateFile _ => true
  | .createDir _ => true
  | _ => false

/-- Events allowed inside a mutex-guarded section: anything except the
mutex events themselves and file removals. -/
def Event.innerOk : Event → Bool
  | .mutexLock => false
  | .mutexUnlock => false
  | .removeFile _ => false
  | _ => true

/-- Trace shape of the mutex-guarded operations: either no trace at all
(the call returned before acquiring the guard) or a single guarded
section whose interior holds no mutex event and no removal. -/
def MutexShaped {α : Type} (x : α × FS × List Event) : Prop :=
  x.2.2 = [] ∨ ∃ tr, x.2.2 = wrapMutex tr ∧ tr.all Event.innerOk = true

/-- Whether an error is an I/O error (`Error::Io`). -/
def isIoErr : Error → Bool
  | .Io _ => true
  | _ => false

/-- Whether a handle result is an I/O-error failure. -/
def isIoErrRes : Except Error FileHandler → Bool
  | .error (.Io _) => true
  | _ => false

/-- One candidate directory cannot take the file: when the directory
exists, the create-truncate open of the file fails there; when it is
absent, creating the directory fails. -/
def createBlocked (fs : FS) (d name : String) : Bool :=
  if fs.dirExists d then !exOk (openCreateTruncate fs d name).1
  else fs.mkdirFails.contains d

/-- No candidate directory of `new` is writable: every resolved
candidate is blocked (and a failed system-cache resolution failed with
an I/O error, as it does on the modelled platform). -/
def noWritableCandidate (env : Env) (fs : FS) (name : String) : Bool :=
  (match env.additionalSearchPath with
   | some d => !exOk (openCreateTruncate fs d name).1
   | none => true) &&
  (match env.currentBinDir with
   | .ok d => !exOk (openCreateTruncate fs d name).1
   | .error _ => true) &&
  (match env.userAppDir with
   | .ok d => createBlocked fs d name
   | .error _ => true) &&
  (match env.systemCacheDir with
   | .ok d => createBlocked fs d name
   | .error e => isIoErr e)

/-- Whether one creation block settles with a handle at `dir`: the
create-truncate open succeeds there and the locked write of the
serialized default succeeds too. -/
def createWriteSettledOk (fs : FS) (dir name : String)
    (contents : List Nat) : Bool :=
  match tryCreateWrite fs dir name contents with
  | some (.ok _, _, _) => true
  | _ => false

/-- Whether one creation block settles with an error at `dir`: the
create-truncate open succeeds but the locked write fails. -/
def createWriteSettledErr (fs : FS) (dir name : String)
    (contents : List Nat) : Bool :=
  match tryCreateWrite fs dir name contents with
  | some (.error _, _, _) => true
  | _ => false

/-! ### Concrete environments and states used by witnesses and
counterexamples -/

/-- A filesystem with a single writable directory `/bin` and no files. -/
def fsBin : FS := ⟨[], [("/bin", true)], [], [], []⟩

/-- A handle resolved to `/bin/cfg`. -/
def hBin : FileHandler := ⟨"/bin", "cfg"⟩

/-- Environment where only the system cache directory resolves. -/
def envSysOnly : Env :=
  ⟨none, .error (.Io .notFound), .error (.Io .notFound),
   .error (.Io .notFound), .ok "/var/cache/app"⟩

/-- State where `/var/cache/app/cfg` exists but is not writable. -/
def fsSysReadOnly : FS :=
  ⟨[("/var/cache/app/cfg", ⟨[48], false⟩)], [("/var/cache/app", false)],
   [], [], []⟩

/-- Environment resolving the executable, per-user and system cache
directories. -/
def envThree : Env :=
  ⟨none, .ok "/bin", .error (.Io .notFound), .ok "/home/u/.config/app",
   .ok "/var/cache/app"⟩

/-- State where every directory is writable but the byte write on
`/bin/cfg` faults. -/
def fsBinWriteFault : FS :=
  ⟨[], [("/bin", true), ("/home/u/.config/app", true), ("/var/cache/app", true)],
   ["/bin/cfg"], [], []⟩

/-- Environment where only the executable directory resolves. -/
def envBinOnly : Env :=
  ⟨none, .ok "/bin", .error (.Io .notFound), .error (.Io .notFound),
   .error (.Io .notFound)⟩

/-- State where nothing is writable: `/bin` exists read-only and the
per-user and system cache directories are absent and cannot be
created. -/
def fsNothingWritable : FS :=
  ⟨[], [("/bin", false)], [], ["/home/u/.config/app", "/var/cache/app"], []⟩

/-- Environment where only the additional search path is set. -/
def envExtraOnly : Env :=
  ⟨some "/extra", .error (.Io .notFound), .error (.Io .notFound),
   .error (.Io .notFound), .error (.Io .notFound)⟩

/-- State with the config file present in the additional search path. -/
def fsExtraFile : FS :=
  ⟨[("/extra/cfg", ⟨[48], true⟩)], [("/extra", true)], [], [], []⟩

/-! ### Helper lemmas -/

theorem isFileOp_innerOk (e : Event) (h : e.isFileOp = true) :
    e.innerOk = true := by
  cases e <;> simp_all [Event.isFileOp, Event.innerOk]

theorem isFileOp_not_removeFile (e : Event) (h : e.isFileOp = true) :
    e.isRemoveFile = false := by
  cases e <;> simp_all [Event.isFileOp, Event.isRemoveFile]

/-- A trace of plain file operations holds no lock or unlock event. -/
theorem count_locks_of_fileOps (tr : List Event)
    (h : tr.all Event.isFileOp = true) :
    tr.count Event.funlock = 0 ∧ tr.count Event.flockExclusive = 0 := by
  rw [List.all_eq_true] at h
  constructor <;>
    · rw [List.count_eq_zero]
      intro hmem
      have := h _ hmem
      simp [Event.isFileOp] at this

theorem openCreateTruncate_trace_fileOps (fs : FS) (d n : String) :
    ((openCreateTruncate fs d n).2.2).all Event.isFileOp = true := by
  unfold openCreateTruncate
  split
  · split <;> simp [Event.isFileOp]
  · split
    · split <;> simp [Event.isFileOp]
    · simp [Event.isFileOp]

theorem create_dir_trace_fileOps (fs : FS) (d : String) :
    ((create_dir fs d).2.2).all Event.isFileOp = true := by
  unfold create_dir
  split <;> simp [Event.isFileOp]

/-- The trace of a settled creation block: the open's file operations
followed by the exclusive lock acquisition and release. -/
theorem tryCreateWrite_trace (fs : FS) (d n : String) (c : List Nat)
    (r : Except Error FileHandler) (fs' : FS) (tr : List Event)
    (h : tryCreateWrite fs d n c = some (r, fs', tr)) :
    ∃ tf, tf.all Event.isFileOp = true ∧
      tr = tf ++ [Event.flockExclusive, Event.funlock] := by
  unfold tryCreateWrite at h
  rcases hoct : openCreateTruncate fs d n with ⟨ro, fs1, tr1⟩
  have htr1 := openCreateTruncate_trace_fileOps fs d n
  rw [hoct] at h htr1
  cases ro with
  | error e => simp at h
  | ok u =>
    refine ⟨tr1, htr1, ?_⟩
    simp only [write_with_lock, exclusive_lock] at h
    rcases hw : (write_all fs1 (joinPath d n) c) with ⟨rw', fs2⟩
    rw [hw] at h
    cases rw' <;> simp_all

theorem FS.lookupFile_setFile_self (fs : FS) (p : String) (m : FileMeta) :
    (fs.setFile p m).lookupFile p = some m := by
  simp [FS.lookupFile, FS.setFile, List.find?]

theorem FS.failWrites_setFile (fs : FS) (p : String) (m : FileMeta) :
    (fs.setFile p m).failWrites = fs.failWrites := rfl

/-- A successful create-truncate open leaves the opened path present with
empty content and write permission, and does not change the write-fault
set. -/
theorem openCreateTruncate_ok_state (fs : FS) (d n : String)
    (h : (openCreateTruncate fs d n).1 = .ok ()) :
    (openCreateTruncate fs d n).2.1.lookupFile (joinPath d n) = some ⟨[], true⟩ ∧
    (openCreateTruncate fs d n).2.1.failWrites = fs.failWrites := by
  unfold openCreateTruncate at h ⊢
  cases hm : fs.lookupFile (joinPath d n) with
  | some m =>
    simp only [hm] at h ⊢
    cases hw : m.writable with
    | true =>
      refine ⟨?_, ?_⟩
      · simpa [hw] using FS.lookupFile_setFile_self fs (joinPath d n) ⟨[], m.writable⟩
      · simp [hw, FS.failWrites_setFile]
    | false => simp [hw] at h
  | none =>
    simp only [hm] at h ⊢
    cases he : fs.dirExists d with
    | true =>
      cases hwr : fs.dirWritable d with
      | true =>
        refine ⟨?_, ?_⟩
        · simpa [he, hwr] using FS.lookupFile_setFile_self fs (joinPath d n) ⟨[], true⟩
        · simp [he, hwr, FS.failWrites_setFile]
      | false => simp [he, hwr] at h
    | false => simp [he] at h

/-- Peeling one optional candidate off the spec's search list is exactly
one `open` block of the source. -/
theorem openSearch_cons_opt (fs : FS) (name : String) (w : Bool)
    (cand : Option String) (rest : List String) (sys : Except Error String) :
    openSearch fs name w (optList cand ++ rest) sys =
      openStep fs name w cand (openSearch fs name w rest sys) := by
  cases cand <;> simp [optList, openSearch, openStep]

/-- `FileHandler::open` equals the first-match search over the spec's
read-oriented candidate list, finishing with the system cache block. -/
theorem open'_eq_openSearch (env : Env) (fs : FS) (name : String) (w : Bool) :
    FileHandler.open' env fs name w =
      openSearch fs name w (readOrderDirs env) env.systemCacheDir := by
  unfold FileHandler.open' readOrderDirs
  rw [List.append_assoc, List.append_assoc,
    show optList (resToOpt env.userAppDir) =
      optList (resToOpt env.userAppDir) ++ [] from (List.append_nil _).symm]
  rw [openSearch_cons_opt, openSearch_cons_opt, openSearch_cons_opt,
    openSearch_cons_opt]
  rfl

/-- `FileHandler::new` equals the first-match creation search over the
spec's candidate list. -/
theorem new_eq_newFromSpec {T : Type} (S : Serde T) (dflt : T) (env : Env)
    (fs : FS) (name : String) (w : Bool) :
    FileHandler.new S dflt env fs name w = newFromSpec S dflt env fs name w := by
  unfold FileHandler.new newFromSpec
  rfl

/-- A failed create-truncate open fails with an I/O error and leaves
the filesystem untouched, with no trace. -/
theorem openCreateTruncate_fail_state (fs : FS) (d n : String)
    (h : exOk (openCreateTruncate fs d n).1 = false) :
    (∃ k, (openCreateTruncate fs d n).1 = .error (.Io k)) ∧
    (openCreateTruncate fs d n).2.1 = fs ∧
    (openCreateTruncate fs d n).2.2 = [] := by
  unfold openCreateTruncate at h ⊢
  cases hm : fs.lookupFile (joinPath d n) with
  | some m =>
    rw [hm] at h
    by_cases hw : m.writable = true
    · simp [hw, exOk] at h
    · have hw' : m.writable = false := by simpa using hw
      simp [hw']
  | none =>
    rw [hm] at h
    by_cases hde : fs.dirExists d = true
    · by_cases hwr : fs.dirWritable d = true
      · simp [hde, hwr, exOk] at h
      · have hwr' : fs.dirWritable d = false := by simpa using hwr
        simp [hde, hwr']
    · have hde' : fs.dirExists d = false := by simpa using hde
      simp [hde']

/-- When the create-truncate open fails, the whole candidate block
falls through. -/
theorem tryCreateWrite_none_of_openFail (fs : FS) (d n : String)
    (c : List Nat) (h : exOk (openCreateTruncate fs d n).1 = false) :
    tryCreateWrite fs d n c = none := by
  unfold tryCreateWrite
  rcases hoct : openCreateTruncate fs d n with ⟨ro, fs1, tr1⟩
  rw [hoct] at h
  cases ro with
  | ok u => simp [exOk] at h
  | error e => rfl

theorem newBlock_skip (fs : FS) (dir name : String) (c : List Nat)
    (acc : List Event)
    (k : FS → List Event → Except Error FileHandler × FS × List Event)
    (h : exOk (openCreateTruncate fs dir name).1 = false) :
    newBlock fs dir name c acc k = k fs acc := by
  unfold newBlock
  rw [tryCreateWrite_none_of_openFail fs dir name c h]

theorem newBlockMkdir_skip (fs : FS) (dir name : String) (c : List Nat)
    (acc : List Event)
    (k : FS → List Event → Except Error FileHandler × FS × List Event)
    (h : createBlocked fs dir name = true) :
    newBlockMkdir fs dir name c acc k = k fs acc := by
  unfold newBlockMkdir
  unfold createBlocked at h
  by_cases hde : fs.dirExists dir = true
  · rw [hde] at h
    simp only [if_true] at h
    simp only [hde, if_true]
    exact newBlock_skip fs dir name c acc k (by simpa using h)
  · have hde' : fs.dirExists dir = false := by simpa using hde
    rw [hde'] at h
    simp only [Bool.false_eq_true, if_false] at h
    simp only [hde', Bool.false_eq_true, if_false]
    unfold create_dir
    rw [h]
    simp only [if_true]
    rw [List.append_nil]

theorem newCand_skip_error (e : Error) (mk : Bool) (name : String)
    (c : List Nat)
    (k : FS → List Event → Except Error FileHandler × FS × List Event)
    (fs : FS) (acc : List Event) :
    newCand (.error e) mk name c k fs acc = k fs acc := rfl

theorem newCand_plain (d : String) (name : String) (c : List Nat)
    (k : FS → List Event → Except Error FileHandler × FS × List Event)
    (fs : FS) (acc : List Event) :
    newCand (.ok d) false name c k fs acc = newBlock fs d name c acc k := rfl

theorem newCand_mkdir (d : String) (name : String) (c : List Nat)
    (k : FS → List Event → Except Error FileHandler × FS × List Event)
    (fs : FS) (acc : List Event) :
    newCand (.ok d) true name c k fs acc = newBlockMkdir fs d name c acc k :=
  rfl

theorem all_fileOps_innerOk (tr : List Event)
    (h : tr.all Event.isFileOp = true) : tr.all Event.innerOk = true := by
  rw [List.all_eq_true] at h ⊢
  exact fun x hx => isFileOp_innerOk x (h x hx)

theorem all_innerOk_append (a b : List Event)
    (ha : a.all Event.innerOk = true) (hb : b.all Event.innerOk = true) :
    (a ++ b).all Event.innerOk = true := by
  simp [List.all_append, ha, hb]

theorem innerOk_not_removeFile (e : Event) (h : e.innerOk = true) :
    e.isRemoveFile = false := by
  cases e <;> simp_all [Event.innerOk, Event.isRemoveFile]

/-- The write-with-lock wrapper only ever emits the lock pair. -/
theorem write_with_lock_trace (fs : FS) (p : String) (c : List Nat) :
    (write_with_lock fs p c).2.2 = [Event.flockExclusive, Event.funlock] := by
  unfold write_with_lock exclusive_lock
  rfl

/-- The open-and-write tail of the system cache block produces one
guarded section with a clean interior. -/
theorem sysOpenWrite_mutexShaped (fs1 : FS) (dir name : String)
    (c : List Nat) (acc : List Event)
    (hacc : acc.all Event.innerOk = true) :
    MutexShaped (sysOpenWrite fs1 dir name c acc) := by
  unfold sysOpenWrite
  rcases hoct : openCreateTruncate fs1 dir name with ⟨ro, fs2, tr2⟩
  have htr2 := openCreateTruncate_trace_fileOps fs1 dir name
  rw [hoct] at htr2
  have htr2' := all_fileOps_innerOk _ htr2
  cases ro with
  | error e => exact Or.inr ⟨acc ++ tr2, rfl, all_innerOk_append _ _ hacc htr2'⟩
  | ok u =>
    have hall : (acc ++ tr2 ++ (write_with_lock fs2 (joinPath dir name) c).2.2).all
        Event.innerOk = true := by
      rw [write_with_lock_trace]
      exact all_innerOk_append _ _ (all_innerOk_append _ _ hacc htr2') (by rfl)
    cases hw : (write_with_lock fs2 (joinPath dir name) c).1 with
    | error e =>
      exact Or.inr ⟨acc ++ tr2 ++ (write_with_lock fs2 (joinPath dir name) c).2.2,
        by simp [hw], hall⟩
    | ok u2 =>
      exact Or.inr ⟨acc ++ tr2 ++ (write_with_lock fs2 (joinPath dir name) c).2.2,
        by simp [hw], hall⟩

/-- The system cache block always produces one guarded section with a
clean interior. -/
theorem sysStep_mutexShaped (sys : Except Error String) (fs : FS)
    (name : String) (c : List Nat) (acc : List Event)
    (hacc : acc.all Event.innerOk = true) :
    MutexShaped (sysStep sys fs name c acc) := by
  unfold sysStep
  cases sys with
  | error e => exact Or.inr ⟨acc, rfl, hacc⟩
  | ok dir =>
    by_cases hde : fs.dirExists dir = true
    · simp only [hde, if_true]
      exact sysOpenWrite_mutexShaped fs dir name c acc hacc
    · simp only [hde, if_false]
      rcases hcd : create_dir fs dir with ⟨rc, fs1, tr1⟩
      have htr1 := create_dir_trace_fileOps fs dir
      rw [hcd] at htr1
      have htr1' := all_fileOps_innerOk _ htr1
      cases rc with
      | error e => exact Or.inr ⟨acc ++ tr1, rfl, all_innerOk_append _ _ hacc htr1'⟩
      | ok u =>
        exact sysOpenWrite_mutexShaped fs1 dir name c (acc ++ tr1)
          (all_innerOk_append _ _ hacc htr1')

/-- A plain candidate block preserves the guarded-section trace shape. -/
theorem newBlock_mutexShaped (fs : FS) (dir name : String) (c : List Nat)
    (acc : List Event)
    (k : FS → List Event → Except Error FileHandler × FS × List Event)
    (hacc : acc.all Event.innerOk = true)
    (hk : ∀ fs' acc', acc'.all Event.innerOk = true → MutexShaped (k fs' acc')) :
    MutexShaped (newBlock fs dir name c acc k) := by
  unfold newBlock
  rcases htc : tryCreateWrite fs dir name c with _ | ⟨r, fs', tr⟩
  · exact hk fs acc hacc
  · obtain ⟨tf, htf, rfl⟩ := tryCreateWrite_trace _ _ _ _ _ _ _ htc
    refine Or.inr ⟨acc ++ (tf ++ [.flockExclusive, .funlock]), rfl, ?_⟩
    refine all_innerOk_append _ _ hacc (all_innerOk_append _ _
      (all_fileOps_innerOk _ htf) (by rfl))

/-- The directory-creating candidate block preserves the shape too. -/
theorem newBlockMkdir_mutexShaped (fs : FS) (dir name : String)
    (c : List Nat) (acc : List Event)
    (k : FS → List Event → Except Error FileHandler × FS × List Event)
    (hacc : acc.all Event.innerOk = true)
    (hk : ∀ fs' acc', acc'.all Event.innerOk = true → MutexShaped (k fs' acc')) :
    MutexShaped (newBlockMkdir fs dir name c acc k) := by
  unfold newBlockMkdir
  by_cases hde : fs.dirExists dir = true
  · simp only [hde, if_true]
    exact newBlock_mutexShaped fs dir name c acc k hacc hk
  · simp only [hde, if_false]
    rcases hcd : create_dir fs dir with ⟨rc, fs1, tr1⟩
    have htr1 := create_dir_trace_fileOps fs dir
    rw [hcd] at htr1
    have htr1' := all_fileOps_innerOk _ htr1
    cases rc with
    | error e => exact hk fs1 (acc ++ tr1) (all_innerOk_append _ _ hacc htr1')
    | ok u =>
      exact newBlock_mutexShaped fs1 dir name c (acc ++ tr1) k
        (all_innerOk_append _ _ hacc htr1') hk

/-- Candidate dispatch preserves the guarded-section trace shape. -/
theorem newCand_mutexShaped (res : Except Error String) (mk : Bool)
    (name : String) (c : List Nat)
    (k : FS → List Event → Except Error FileHandler × FS × List Event)
    (fs : FS) (acc : List Event)
    (hacc : acc.all Event.innerOk = true)
    (hk : ∀ fs' acc', acc'.all Event.innerOk = true → MutexShaped (k fs' acc')) :
    MutexShaped (newCand res mk name c k fs acc) := by
  unfold newCand
  cases res with
  | error e => exact hk fs acc hacc
  | ok dir =>
    cases mk with
    | true =>
      simp only [if_true]
      exact newBlockMkdir_mutexShaped fs dir name c acc k hacc hk
    | false =>
      simp only [Bool.false_eq_true, if_false]
      exact newBlock_mutexShaped fs dir name c acc k hacc hk

/-- `FileHandler::new` either returns before acquiring anything or
produces exactly one mutex-guarded section with a clean interior. -/
theorem new_mutexShaped {T : Type} (S : Serde T) (dflt : T) (env : Env)
    (fs : FS) (name : String) (w : Bool) :
    MutexShaped (FileHandler.new S dflt env fs name w) := by
  unfold FileHandler.new
  cases FileHandler.open' env fs name w with
  | ok fh => exact Or.inl rfl
  | error e =>
    cases S.to_string_pretty dflt with
    | error e2 => exact Or.inl rfl
    | ok contents =>
      refine newCand_mutexShaped _ _ _ _ _ _ _ (by rfl) ?_
      intro fs1 acc1 h1
      refine newCand_mutexShaped _ _ _ _ _ _ _ h1 ?_
      intro fs2 acc2 h2
      refine newCand_mutexShaped _ _ _ _ _ _ _ h2 ?_
      intro fs3 acc3 h3
      exact sysStep_mutexShaped _ _ _ _ _ h3

/-- `write_file` either fails before any I/O or produces exactly one
mutex-guarded section with a clean interior. -/
theorem write_file_mutexShaped {T : Type} (S : Serde T) (fs : FS)
    (h : FileHandler) (v : T) : MutexShaped (write_file S fs h v) := by
  unfold write_file
  cases S.to_string_pretty v with
  | error e => exact Or.inl rfl
  | ok contents =>
    rcases hoct : openCreateTruncate fs h.dir h.name with ⟨ro, fs1, tr1⟩
    have htr1 := openCreateTruncate_trace_fileOps fs h.dir h.name
    rw [hoct] at htr1
    have htr1' := all_fileOps_innerOk _ htr1
    cases ro with
    | error e => exact Or.inr ⟨tr1, rfl, htr1'⟩
    | ok u =>
      refine Or.inr ⟨tr1 ++ (write_with_lock fs1 h.path contents).2.2, rfl, ?_⟩
      rw [write_with_lock_trace]
      exact all_innerOk_append _ _ htr1' (by rfl)

/-! ### Claim theorems -/

/-- C1: for every serializable value `v` (one the serializer encodes and
the deserializer decodes back to `v`) and every handle whose resolved
path is writable (the truncating open succeeds and the byte write does
not fault), `write_file v` followed by `read_file` on the same handle
returns `v`. -/
theorem C1_write_then_read_round_trips {T : Type} (S : Serde T) (fs : FS)
    (h : FileHandler) (v : T) (bs : List Nat)
    (hser : S.to_string_pretty v = .ok bs)
    (hdeser : S.from_reader bs = .ok v)
    (hopen : (openCreateTruncate fs h.dir h.name).1 = .ok ())
    (hw : fs.failWrites.contains h.path = false) :
    (write_file S fs h v).1 = .ok () ∧
    (read_file S (write_file S fs h v).2.1 h).1 = .ok v := by
  obtain ⟨hl, hfw⟩ := openCreateTruncate_ok_state fs h.dir h.name hopen
  unfold write_file
  rw [hser]
  rcases hoct : openCreateTruncate fs h.dir h.name with ⟨r, fs1, tr1⟩
  rw [hoct] at hopen hl hfw
  simp only at hopen hl hfw
  subst hopen
  simp only [write_with_lock, exclusive_lock, write_all, FileHandler.path] at *
  rw [← hfw] at hw
  simp only [hw, Bool.false_eq_true, if_false, hl]
  constructor
  · trivial
  · simp only [read_file, FileHandler.path]
    rw [FS.lookupFile_setFile_self]
    simp [shared_lock, hdeser]

/-- C1 witness: the round trip evaluated at the value `42` on a handle
in a writable directory. -/
theorem C1_witness :
    serdeNat.to_string_pretty 42 = .ok (natToBytes 42) ∧
    serdeNat.from_reader (natToBytes 42) = .ok 42 ∧
    (openCreateTruncate fsBin hBin.dir hBin.name).1 = .ok () ∧
    fsBin.failWrites.contains hBin.path = false ∧
    ((write_file serdeNat fsBin hBin 42).1 = .ok () ∧
     (read_file serdeNat (write_file serdeNat fsBin hBin 42).2.1 hBin).1 = .ok 42) :=
  ⟨rfl, by decide, by decide, by decide,
   C1_write_then_read_round_trips serdeNat fsBin hBin 42 (natToBytes 42)
     rfl (by decide) (by decide) (by decide)⟩

/-- C10: when serialization of the value fails, `write_file` returns the
serialization error with the filesystem unchanged and an empty event
trace — no open, truncate or lock happens. -/
theorem C10_serialize_error_before_io {T : Type} (S : Serde T) (fs : FS)
    (h : FileHandler) (v : T) (e : Error)
    (hser : S.to_string_pretty v = .error e) :
    write_file S fs h v = (.error e, fs, []) := by
  unfold write_file
  rw [hser]

/-- C10 witness: a failing serializer applied on a state holding prior
content leaves the state untouched. -/
theorem C10_witness :
    serdeFail.to_string_pretty 7 = .error .JsonParser ∧
    write_file serdeFail fsBin hBin 7 = (.error .JsonParser, fsBin, []) :=
  ⟨rfl, C10_serialize_error_before_io serdeFail fsBin hBin 7 .JsonParser rfl⟩

/-- C2: with two processes writing payloads `[7,7,7]` and `[5]` to the
same path, the interleaving in which process 1 performs its truncating
open while process 0 holds the exclusive lock mid-write runs to
completion (both finished, lock free, every byte written under the
lock) yet leaves the file as `[5,7,7]` — a mix of both payloads with a
zero-filled hole, equal to neither complete payload.  The truncation at
`open` happens before `lock_exclusive` is called, so the advisory lock
does not serialize whole `write_file` calls across processes, contrary
to the crate's own doc comment that concurrent use from multiple
processes is safe. -/
theorem C2_interleaving_mixes_payloads :
    (wrun (winit [[7, 7, 7], [5]]) [0, 0, 0, 1, 0, 0, 0, 1, 1, 1]).file = [5, 7, 7] ∧
    (wrun (winit [[7, 7, 7], [5]]) [0, 0, 0, 1, 0, 0, 0, 1, 1, 1]).lockHolder = none ∧
    (wrun (winit [[7, 7, 7], [5]]) [0, 0, 0, 1, 0, 0, 0, 1, 1, 1]).writers.all
      (fun w => w.finished) = true ∧
    ([5, 7, 7] : List Nat) ≠ [7, 7, 7] ∧ ([5, 7, 7] : List Nat) ≠ [5] := by
  decide

/-- C3 counterexample: in an environment where only the system cache
directory resolves and the file there exists but is not writable, a
writable-mode `open` finds no qualifying candidate, yet fails with
PermissionDenied — not with NotFound as the claim states. -/
theorem C3_counterexample :
    readOrderDirs envSysOnly = [] ∧
    openTry fsSysReadOnly "/var/cache/app" "cfg" true = false ∧
    FileHandler.open' envSysOnly fsSysReadOnly "cfg" true =
      .error (.Io .permissionDenied) ∧
    (Error.Io .permissionDenied ≠ Error.Io .notFound) := by
  decide

/-- C3 (amended): `open` searches the candidate directories in the fixed
read-oriented order — additional search path if set, executable
directory, bundle resource directory, per-user application directory,
then the system cache directory — and returns a handle for the first
where the file opens with the requested access mode; when no candidate
qualifies it fails with the error of the final step: the system cache
resolution error, or the open error at the system cache path (NotFound
when the file is absent there, but e.g. PermissionDenied when it exists
without the requested access). -/
theorem C3_open_searches_in_order (env : Env) (fs : FS) (name : String)
    (w : Bool) :
    FileHandler.open' env fs name w =
      openSearch fs name w (readOrderDirs env) env.systemCacheDir :=
  open'_eq_openSearch env fs name w

/-- C4 counterexample: with the executable directory first and writable
but its byte write faulting, and the per-user directory fully able to
take the file, `new` does not return a handle for the first directory
where creation and the write of the default both succeed (the per-user
one): it aborts with the write error of the earlier candidate. -/
theorem C4_counterexample :
    createWriteSettledErr fsBinWriteFault "/bin" "cfg" (natToBytes 0) = true ∧
    createWriteSettledOk fsBinWriteFault "/home/u/.config/app" "cfg"
      (natToBytes 0) = true ∧
    (FileHandler.new serdeNat 0 envThree fsBinWriteFault "cfg" true).1 =
      .error (.Io .otherErr) ∧
    (FileHandler.new serdeNat 0 envThree fsBinWriteFault "cfg" true).1 ≠
      .ok ⟨"/home/u/.config/app", "cfg"⟩ := by
  decide

/-- C4 (amended): `new` first tries `open`; on its failure it serializes
the type's default value and, holding the Cross-Thread Guard, attempts
to create the file in each candidate directory in order — additional
search path, executable directory, per-user application directory
(creating that directory when it is absent and skipping the candidate
when the creation fails), then the system cache directory (creating it
when absent, its resolution or creation failure aborting) — returning a
handle for the first directory where the create-truncate open succeeds,
provided the locked write of the default there succeeds as well: a
write failure after a successful open aborts the whole call with that
error instead of trying later candidates, and when every candidate is
exhausted the final candidate's error is surfaced. -/
theorem C4_new_creation_search (T : Type) (S : Serde T) (dflt : T)
    (env : Env) (fs : FS) (name : String) (w : Bool) :
    FileHandler.new S dflt env fs name w = newFromSpec S dflt env fs name w :=
  new_eq_newFromSpec S dflt env fs name w

/-- C6: the advisory lock is released on every exit path of the lock
wrappers: `shared_lock` and `exclusive_lock` emit the release event
right after the acquisition, whatever the wrapped operation returned; a
`read_file` either never acquires the lock (missing file) or pairs the
shared acquisition with a release even when deserialization failed; a
`write_file` trace always balances exclusive acquisitions with
releases, also when the byte write failed. -/
theorem C6_lock_released_on_all_paths {T R : Type} (S : Serde T)
    (content : List Nat) (f : List Nat → Except Error R)
    (g : FS → Except Error Unit × FS) (fs : FS) (h : FileHandler) (v : T) :
    (shared_lock content f).2 = [.flockShared, .funlock] ∧
    (exclusive_lock fs g).2.2 = [.flockExclusive, .funlock] ∧
    ((read_file S fs h).2 = [] ∨
      (read_file S fs h).2 = [.flockShared, .funlock]) ∧
    (write_file S fs h v).2.2.count .funlock =
      (write_file S fs h v).2.2.count .flockExclusive := by
  refine ⟨rfl, rfl, ?_, ?_⟩
  · unfold read_file
    cases fs.lookupFile h.path <;> simp [shared_lock]
  · unfold write_file
    cases S.to_string_pretty v with
    | error e => rfl
    | ok contents =>
      rcases hoct : openCreateTruncate fs h.dir h.name with ⟨r, fs1, tr1⟩
      have htr1 := openCreateTruncate_trace_fileOps fs h.dir h.name
      rw [hoct] at htr1
      obtain ⟨hc1, hc2⟩ := count_locks_of_fileOps tr1 htr1
      cases r with
      | error e => simp [wrapMutex, List.count_append, hc1, hc2]
      | ok u =>
        simp only [write_with_lock, exclusive_lock]
        simp [wrapMutex, List.count_append, hc1, hc2]

/-- C5 counterexample: `new` succeeds in creating `/bin/cfg` where no
file existed, yet its trace holds no removal event at all — so no
create-then-delete writability probe of a throwaway file ever happened,
and in particular none succeeded in the chosen directory. -/
theorem C5_counterexample :
    fsBin.lookupFile "/bin/cfg" = none ∧
    (FileHandler.new serdeNat 0 envBinOnly fsBin "cfg" true).1 =
      .ok ⟨"/bin", "cfg"⟩ ∧
    ((FileHandler.new serdeNat 0 envBinOnly fsBin "cfg" true).2.2.any
      (fun e => e.isRemoveFile)) = false := by
  decide

/-- C5 (amended): `new` performs no writability probe at all — no
throwaway file is created and deleted; it directly attempts the
create-truncate open of the target file in each candidate directory
(under the Cross-Thread Guard) and places the file in the first
directory where that open and the locked write of the default succeed.
Formally: no run of `new` ever emits a file-removal event. -/
theorem C5_new_never_removes_files {T : Type} (S : Serde T) (dflt : T)
    (env : Env) (fs : FS) (name : String) (w : Bool) :
    ((FileHandler.new S dflt env fs name w).2.2).all
      (fun e => !e.isRemoveFile) = true := by
  rcases new_mutexShaped S dflt env fs name w with hnil | ⟨tr, heq, hin⟩
  · rw [hnil]
    rfl
  · rw [heq]
    unfold wrapMutex
    rw [List.all_eq_true] at hin ⊢
    intro x hx
    simp only [List.mem_cons, List.mem_append, List.mem_singleton] at hx
    rcases hx with hx | hx | hx | hx
    · subst hx; rfl
    · simpa using innerOk_not_removeFile x (hin x hx)
    · subst hx; rfl
    · simp at hx

/-- C7 counterexample: an ordinary `write_file` call does acquire the
process-wide global mutex — its trace contains the acquisition — so the
claim that ordinary writes never take it is false on the code. -/
theorem C7_counterexample :
    (write_file serdeNat fsBin hBin 5).2.2.contains Event.mutexLock = true := by
  decide

/-- C7 (amended): the global mutex is not acquired by `read_file`, whose
trace holds no mutex event; `write_file` and `new` do acquire it — each
run either performs no I/O at all (empty trace) or consists of exactly
one mutex-guarded section, with no mutex event in its interior. -/
theorem C7_mutex_use_by_operation {T : Type} (S : Serde T) (dflt : T)
    (env : Env) (fs : FS) (h : FileHandler) (v : T) (name : String)
    (w : Bool) :
    ((read_file S fs h).2).all
      (fun e => !(e == Event.mutexLock) && !(e == Event.mutexUnlock)) = true ∧
    MutexShaped (write_file S fs h v) ∧
    MutexShaped (FileHandler.new S dflt env fs name w) := by
  refine ⟨?_, write_file_mutexShaped S fs h v,
    new_mutexShaped S dflt env fs name w⟩
  unfold read_file
  cases fs.lookupFile h.path <;> simp [shared_lock]

/-- Exhaustion tail: the system cache block of `new` on a blocked
candidate fails with an I/O error and leaves the state unchanged. -/
theorem sysTail_exhausted (sys : Except Error String) (fs : FS)
    (name : String) (contents : List Nat)
    (h4 : (match sys with
           | .ok d => createBlocked fs d name
           | .error e => isIoErr e) = true) :
    isIoErrRes (sysStep sys fs name contents []).1 = true ∧
    (sysStep sys fs name contents []).2.1 = fs := by
  cases sys with
  | error e =>
    cases e with
    | Io k => exact ⟨rfl, rfl⟩
    | Env => simp [isIoErr] at h4
    | JsonParser => simp [isIoErr] at h4
  | ok d =>
    replace h4 : createBlocked fs d name = true := h4
    unfold sysStep
    by_cases hde : fs.dirExists d = true
    · simp only [hde, if_true]
      have h4' : exOk (openCreateTruncate fs d name).1 = false := by
        unfold createBlocked at h4
        rw [hde] at h4
        simpa using h4
      obtain ⟨⟨k0, hk0⟩, hfs2, htr2⟩ := openCreateTruncate_fail_state fs d name h4'
      unfold sysOpenWrite
      rcases hoct : openCreateTruncate fs d name with ⟨ro, fs2, tr2⟩
      rw [hoct] at hk0 hfs2
      simp only at hk0 hfs2
      subst hk0
      exact ⟨rfl, hfs2⟩
    · have hde' : fs.dirExists d = false := by simpa using hde
      have hmk : fs.mkdirFails.contains d = true := by
        unfold createBlocked at h4
        rw [hde'] at h4
        simpa using h4
      simp only [hde', Bool.false_eq_true, if_false]
      unfold create_dir
      rw [hmk]
      simp [isIoErrRes]

/-- Exhaustion tail: the user-directory and system blocks on blocked
candidates. -/
theorem userTail_exhausted (env : Env) (fs : FS) (name : String)
    (contents : List Nat)
    (h3 : (match env.userAppDir with
           | .ok d => createBlocked fs d name
           | .error _ => true) = true)
    (h4 : (match env.systemCacheDir with
           | .ok d => createBlocked fs d name
           | .error e => isIoErr e) = true) :
    isIoErrRes ((newCand env.userAppDir true name contents
      (fun fs acc => sysStep env.systemCacheDir fs name contents acc)
      fs []).1) = true ∧
    (newCand env.userAppDir true name contents
      (fun fs acc => sysStep env.systemCacheDir fs name contents acc)
      fs []).2.1 = fs := by
  cases huser : env.userAppDir with
  | ok d =>
    rw [huser] at h3
    rw [newCand_mkdir, newBlockMkdir_skip fs d name contents [] _ h3]
    exact sysTail_exhausted env.systemCacheDir fs name contents h4
  | error e =>
    rw [newCand_skip_error]
    exact sysTail_exhausted env.systemCacheDir fs name contents h4

/-- Exhaustion tail: the executable-directory block and below. -/
theorem binTail_exhausted (env : Env) (fs : FS) (name : String)
    (contents : List Nat)
    (h2 : (match env.currentBinDir with
           | .ok d => !exOk (openCreateTruncate fs d name).1
           | .error _ => true) = true)
    (h3 : (match env.userAppDir with
           | .ok d => createBlocked fs d name
           | .error _ => true) = true)
    (h4 : (match env.systemCacheDir with
           | .ok d => createBlocked fs d name
           | .error e => isIoErr e) = true) :
    isIoErrRes ((newCand env.currentBinDir false name contents
      (newCand env.userAppDir true name contents
        (fun fs acc => sysStep env.systemCacheDir fs name contents acc))
      fs []).1) = true ∧
    (newCand env.currentBinDir false name contents
      (newCand env.userAppDir true name contents
        (fun fs acc => sysStep env.systemCacheDir fs name contents acc))
      fs []).2.1 = fs := by
  cases hbin : env.currentBinDir with
  | ok d =>
    rw [hbin] at h2
    have h2' : exOk (openCreateTruncate fs d name).1 = false := by
      simpa using h2
    rw [newCand_plain, newBlock_skip fs d name contents [] _ h2']
    exact userTail_exhausted env fs name contents h3 h4
  | error e =>
    rw [newCand_skip_error]
    exact userTail_exhausted env fs name contents h3 h4

/-- C8: when `open` finds nothing, the default serializes, and no
candidate directory can take the file (every resolved candidate's
create-truncate open fails, absent user/system directories cannot be
created, and a failed system-cache resolution failed with an I/O
error), `new` fails with an I/O error and leaves the filesystem — in
particular every candidate directory — exactly as it was: no partial
file anywhere. -/
theorem C8_exhaustion_leaves_no_partial_file {T : Type} (S : Serde T)
    (dflt : T) (env : Env) (fs : FS) (name : String) (w : Bool)
    (contents : List Nat)
    (hopen : exOk (FileHandler.open' env fs name w) = false)
    (hser : S.to_string_pretty dflt = .ok contents)
    (hnw : noWritableCandidate env fs name = true) :
    isIoErrRes (FileHandler.new S dflt env fs name w).1 = true ∧
    (FileHandler.new S dflt env fs name w).2.1 = fs := by
  unfold noWritableCandidate at hnw
  simp only [Bool.and_eq_true] at hnw
  obtain ⟨⟨⟨h1, h2⟩, h3⟩, h4⟩ := hnw
  unfold FileHandler.new
  cases ho : FileHandler.open' env fs name w with
  | ok fh =>
    rw [ho] at hopen
    simp [exOk] at hopen
  | error e0 =>
    dsimp only
    cases hs : S.to_string_pretty dflt with
    | error e1 =>
      rw [hs] at hser
      simp at hser
    | ok c2 =>
      dsimp only
      cases hasp : env.additionalSearchPath with
      | some d =>
        rw [hasp] at h1
        have h1' : exOk (openCreateTruncate fs d name).1 = false := by
          simpa using h1
        dsimp only [optToRes]
        rw [newCand_plain, newBlock_skip fs d name c2 [] _ h1']
        exact binTail_exhausted env fs name c2 h2 h3 h4
      | none =>
        dsimp only [optToRes]
        rw [newCand_skip_error]
        exact binTail_exhausted env fs name c2 h2 h3 h4

/-- C8 witness: a state where `/bin` is read-only and the user and
system cache directories are absent and cannot be created: `new` fails
with an I/O error and the filesystem is unchanged. -/
theorem C8_witness :
    exOk (FileHandler.open' envThree fsNothingWritable "cfg" true) = false ∧
    serdeNat.to_string_pretty 0 = .ok (natToBytes 0) ∧
    noWritableCandidate envThree fsNothingWritable "cfg" = true ∧
    (isIoErrRes
        (FileHandler.new serdeNat 0 envThree fsNothingWritable "cfg" true).1
        = true ∧
      (FileHandler.new serdeNat 0 envThree fsNothingWritable "cfg" true).2.1
        = fsNothingWritable) :=
  ⟨by decide, rfl, by decide,
   C8_exhaustion_leaves_no_partial_file serdeNat 0 envThree fsNothingWritable
     "cfg" true (natToBytes 0) (by decide) rfl (by decide)⟩

/-- C9: with the additional search path set and holding the only copy of
the file, `cleanup` succeeds yet leaves that copy in place, and a
subsequent `open` still finds it — `cleanup` iterates only the
executable, per-user and system cache directories, contradicting its
own doc comment ("Remove the file from every location where it can be
read") and the claim. -/
theorem C9_cleanup_misses_additional_path :
    (cleanup envExtraOnly fsExtraFile "cfg").1 = .ok () ∧
    ((cleanup envExtraOnly fsExtraFile "cfg").2.1.lookupFile "/extra/cfg").isSome
      = true ∧
    FileHandler.open' envExtraOnly (cleanup envExtraOnly fsExtraFile "cfg").2.1
      "cfg" false = .ok ⟨"/extra", "cfg"⟩ := by
  decide

end ConfigFileHandler
